import Mathlib

/-!
Verification of the motion controller, camera gimbal, video pipeline and
speech queue of the smart-car repository.

The embedding is polymorphic over a `LinearOrderedField K` so that every
definition is executable when `K` has decidable order (for example `K = ℚ`),
while theorems about the analytic joystick path are stated at `K = ℝ` with
`Real.sqrt`, `Complex.arg` (the mathematical `atan2`) and `Real.pi` supplied
for the square-root, angle and π values that the source computes with
`math.sqrt`, `math.atan2` and `math.pi`.
-/

set_option maxHeartbeats 1000000

/-- Movement directions of the chassis, from the `Direction` enum in
`src/control/robot.py` (values "forward", "backward", "left", "right",
"stop"). -/
inductive Direction where
  | forward
  | backward
  | left
  | right
  | stop
  deriving DecidableEq, Repr

/-- String value of a direction, as `Direction.<X>.value` in the source. -/
def Direction.value : Direction → String
  | .forward => "forward"
  | .backward => "backward"
  | .left => "left"
  | .right => "right"
  | .stop => "stop"

/-- Lookup of a direction from its string, modelling the Python
`Direction(direction)` enum construction in `RobotController.move`, which
raises `ValueError` (here: `none`) when the string is not one of the five
enum values. -/
def Direction.ofString (s : String) : Option Direction :=
  if s = "forward" then some .forward
  else if s = "backward" then some .backward
  else if s = "left" then some .left
  else if s = "right" then some .right
  else if s = "stop" then some .stop
  else none

/-- One simulated motor: its commanded speed and its direction multiplier,
as the `{"speed": 0, "direction": 1}` dictionaries built by
`RobotController._init_motors`. -/
structure Motor (K : Type) where
  speed : K
  direction : ℤ
  deriving DecidableEq, Repr

/-- The four motors keyed `front_left`, `front_right`, `rear_left`,
`rear_right` in `RobotController._init_motors`. -/
structure Motors (K : Type) where
  front_left : Motor K
  front_right : Motor K
  rear_left : Motor K
  rear_right : Motor K
  deriving DecidableEq, Repr

/-- Motor table as initialised by `RobotController._init_motors`: all speeds
0, all direction multipliers 1. -/
def init_motors (K : Type) [LinearOrderedField K] : Motors K :=
  ⟨⟨0, 1⟩, ⟨0, 1⟩, ⟨0, 1⟩, ⟨0, 1⟩⟩

/-- Mutable state of `RobotController`: `current_speed`, `current_direction`,
the `running` flag and the motor table. -/
structure RobotState (K : Type) where
  current_speed : K
  current_direction : Direction
  running : Bool
  motors : Motors K
  deriving DecidableEq, Repr

/-- State put in place by `RobotController.__init__`: speed 0, direction
STOP, not running, motors as `_init_motors` leaves them. -/
def initRobot (K : Type) [LinearOrderedField K] : RobotState K :=
  ⟨0, .stop, false, init_motors K⟩

/-- Result dictionary returned by `RobotController.move`: either
`{"success": True, "direction": d, "speed": s, "duration": t}` or
`{"success": False, "error": e}`. -/
inductive MoveResult (K : Type) where
  | ok (direction : String) (speed : K) (duration : Option K)
  | err (error : String)
  deriving DecidableEq, Repr

/-- Clamp used by `move` on the speed: `max(0.0, min(1.0, speed))`. -/
def clamp01 {K : Type} [LinearOrderedField K] (v : K) : K :=
  max 0 (min 1 v)

/-- Clamp used on joystick axes: `max(-1.0, min(1.0, v))`. -/
def clamp1 {K : Type} [LinearOrderedField K] (v : K) : K :=
  max (-1) (min 1 v)

/-- Body of `RobotController._set_motor_directions`: store the four
direction multipliers, speeds untouched. -/
def set_motor_directions {K : Type} [LinearOrderedField K] (s : RobotState K)
    (fl fr rl rr : ℤ) : RobotState K :=
  { s with motors :=
    ⟨⟨s.motors.front_left.speed, fl⟩, ⟨s.motors.front_right.speed, fr⟩,
     ⟨s.motors.rear_left.speed, rl⟩, ⟨s.motors.rear_right.speed, rr⟩⟩ }

/-- Body of `RobotController._stop_motors`: zero every motor speed (the
direction multipliers are not touched), then set `current_speed = 0.0` and
`current_direction = Direction.STOP`. -/
def stop_motors {K : Type} [LinearOrderedField K] (s : RobotState K) :
    RobotState K :=
  { s with
    motors :=
      ⟨⟨0, s.motors.front_left.direction⟩, ⟨0, s.motors.front_right.direction⟩,
       ⟨0, s.motors.rear_left.direction⟩, ⟨0, s.motors.rear_right.direction⟩⟩,
    current_speed := 0,
    current_direction := .stop }

/-- Body of `RobotController._apply_pid_control` (one control-loop tick): set
each motor's speed to `current_speed * motor["direction"]`. -/
def apply_pid_control {K : Type} [LinearOrderedField K] (s : RobotState K) :
    RobotState K :=
  { s with motors :=
    ⟨⟨s.current_speed * (s.motors.front_left.direction : K),
      s.motors.front_left.direction⟩,
     ⟨s.current_speed * (s.motors.front_right.direction : K),
      s.motors.front_right.direction⟩,
     ⟨s.current_speed * (s.motors.rear_left.direction : K),
      s.motors.rear_left.direction⟩,
     ⟨s.current_speed * (s.motors.rear_right.direction : K),
      s.motors.rear_right.direction⟩⟩ }

/-- Body of `RobotController.move`: validate the direction string against the
enum (failure returns the error dictionary and touches nothing), clamp the
speed to [0,1], store direction and speed, set the motor direction
multipliers from the fixed table (STOP instead runs `_stop_motors`), and
return the success dictionary.

The Python default argument `speed=0.5` is written out explicitly at every
call site of this definition. The `duration` timer thread that the source
spawns is modelled separately by `timer_fire` (the thread's body runs
`_stop_motors` after the sleep); `move` itself only echoes `duration` in its
result, exactly as the source's returned dictionary does. -/
def move {K : Type} [LinearOrderedField K] (s : RobotState K)
    (direction : String) (speed : K) (duration : Option K) :
    RobotState K × MoveResult K :=
  match Direction.ofString direction with
  | none => (s, .err ("Invalid direction: " ++ direction))
  | some dir =>
    let speed := clamp01 speed
    let s := { s with current_direction := dir, current_speed := speed }
    let s :=
      match dir with
      | .forward => set_motor_directions s 1 1 1 1
      | .backward => set_motor_directions s (-1) (-1) (-1) (-1)
      | .left => set_motor_directions s (-1) 1 (-1) 1
      | .right => set_motor_directions s 1 (-1) 1 (-1)
      | .stop => stop_motors s
    (s, .ok dir.value speed duration)

/-- Body of the `stop_after_duration` closure spawned by `move` when a
`duration` is given: after the sleep it calls `self._stop_motors()`
unconditionally — the source keeps no generation counter, so the timer
cannot tell whether a newer command has superseded it. -/
def timer_fire {K : Type} [LinearOrderedField K] (s : RobotState K) :
    RobotState K :=
  stop_motors s

/-- Body of `RobotController.start`: no-op when already running, otherwise
set the `running` flag (the control thread itself is modelled by
`apply_pid_control` ticks). -/
def startController {K : Type} [LinearOrderedField K] (s : RobotState K) :
    RobotState K :=
  if s.running then s else { s with running := true }

/-- Body of `RobotController.stop`: no-op when not running, otherwise clear
the `running` flag and stop all motors. -/
def stopController {K : Type} [LinearOrderedField K] (s : RobotState K) :
    RobotState K :=
  if s.running then stop_motors { s with running := false } else s

/-- Body of `RobotController.joystick_control`. The square root, atan2 and π
of Python's `math` module are passed in as `sqrtK`, `atan2K` and `piK`
(instantiated with `Real.sqrt`, `Complex.arg` and `Real.pi` in the theorems
below); everything else — the axis clamps, the speed cap, the 0.1 deadzone
returning `move(Direction.STOP.value)` with the default speed 0.5, the exact
quadrant boundaries, the 0.7 turn scaling for RIGHT and LEFT, and the final
delegation to `move` — follows the source line by line. -/
def joystick_control {K : Type} [LinearOrderedField K]
    (sqrtK : K → K) (atan2K : K → K → K) (piK : K)
    (s : RobotState K) (x y : K) : RobotState K × MoveResult K :=
  let x := clamp1 x
  let y := clamp1 y
  let speed := min 1 (sqrtK (x * x + y * y))
  if speed < 1 / 10 then
    move s Direction.stop.value (1 / 2) none
  else
    let angle := atan2K y x
    if -(piK / 4) ≤ angle ∧ angle ≤ piK / 4 then
      move s Direction.right.value (speed * (7 / 10)) none
    else if piK / 4 < angle ∧ angle ≤ 3 * piK / 4 then
      move s Direction.forward.value speed none
    else if -(3 * piK / 4) ≤ angle ∧ angle < -(piK / 4) then
      move s Direction.backward.value speed none
    else
      move s Direction.left.value (speed * (7 / 10)) none

/-- Commands and internal events that mutate the robot state: the public
`move` and `joystick_control` calls, `start`/`stop`, a control-loop tick, and
the firing of a pending duration timer. -/
inductive RobotOp (K : Type) where
  | moveCmd (direction : String) (speed : K) (duration : Option K)
  | joystickCmd (x y : K)
  | startCmd
  | stopCmd
  | controlTick
  | timerFireEv
  deriving Repr

/-- Single-step state transition of the robot controller. -/
def robotStep {K : Type} [LinearOrderedField K]
    (sqrtK : K → K) (atan2K : K → K → K) (piK : K)
    (s : RobotState K) : RobotOp K → RobotState K
  | .moveCmd d sp dur => (move s d sp dur).1
  | .joystickCmd x y => (joystick_control sqrtK atan2K piK s x y).1
  | .startCmd => startController s
  | .stopCmd => stopController s
  | .controlTick => apply_pid_control s
  | .timerFireEv => timer_fire s

/-- Robot state after running a sequence of operations from the initial
state. -/
def runRobot {K : Type} [LinearOrderedField K]
    (sqrtK : K → K) (atan2K : K → K → K) (piK : K)
    (ops : List (RobotOp K)) : RobotState K :=
  ops.foldl (robotStep sqrtK atan2K piK) (initRobot K)

/-- MotionState invariant of the specification: the speed is clamped to
[0,1], and direction STOP forces speed 0 together with a zero actuation
output (`current_speed * direction multiplier`) on every wheel. -/
def MotionInv {K : Type} [LinearOrderedField K] (s : RobotState K) : Prop :=
  0 ≤ s.current_speed ∧ s.current_speed ≤ 1 ∧
  (s.current_direction = .stop →
    s.current_speed = 0 ∧
    s.current_speed * (s.motors.front_left.direction : K) = 0 ∧
    s.current_speed * (s.motors.front_right.direction : K) = 0 ∧
    s.current_speed * (s.motors.rear_left.direction : K) = 0 ∧
    s.current_speed * (s.motors.rear_right.direction : K) = 0)

/-- Direction multipliers of the four motors, in source order front-left,
front-right, rear-left, rear-right. -/
def motorDirs {K : Type} [LinearOrderedField K] (s : RobotState K) :
    ℤ × ℤ × ℤ × ℤ :=
  (s.motors.front_left.direction, s.motors.front_right.direction,
   s.motors.rear_left.direction, s.motors.rear_right.direction)

/-- Commanded speeds of the four motors, in source order front-left,
front-right, rear-left, rear-right. -/
def motorSpeeds {K : Type} [LinearOrderedField K] (s : RobotState K) :
    K × K × K × K :=
  (s.motors.front_left.speed, s.motors.front_right.speed,
   s.motors.rear_left.speed, s.motors.rear_right.speed)

/-- Gimbal state of `CameraManager`: the two servo angles and their
configured limits (`horizontal_min/max`, `vertical_min/max`); the limits are
set once in `__init__` and never mutated. -/
structure GimbalState (K : Type) where
  horizontal_angle : K
  vertical_angle : K
  horizontal_min : K
  horizontal_max : K
  vertical_min : K
  vertical_max : K
  deriving DecidableEq, Repr

/-- Gimbal fields as `CameraManager.__init__` sets them: angles 80 and 40,
horizontal range [35, 125], vertical range [-5, 85]. -/
def initGimbal (K : Type) [LinearOrderedField K] : GimbalState K :=
  ⟨80, 40, 35, 125, -5, 85⟩

/-- Body of `CameraManager.set_horizontal_angle`: clamp the angle into
`[horizontal_min, horizontal_max]` unconditionally, then store it. -/
def set_horizontal_angle {K : Type} [LinearOrderedField K]
    (st : GimbalState K) (angle : K) : GimbalState K :=
  { st with
    horizontal_angle := max st.horizontal_min (min st.horizontal_max angle) }

/-- Body of `CameraManager.set_vertical_angle`: clamp the angle into
`[vertical_min, vertical_max]` unconditionally, then store it. -/
def set_vertical_angle {K : Type} [LinearOrderedField K]
    (st : GimbalState K) (angle : K) : GimbalState K :=
  { st with
    vertical_angle := max st.vertical_min (min st.vertical_max angle) }

/-- Body of `CameraManager.joystick_control`: clamp each axis to [-1, 1],
scale by 5 degrees per unit with the vertical axis inverted
(`vertical_delta = -y * 5.0`), and hand the summed angles to the two
clamping setters. -/
def gimbal_joystick_control {K : Type} [LinearOrderedField K]
    (st : GimbalState K) (x y : K) : GimbalState K :=
  let x := clamp1 x
  let y := clamp1 y
  let horizontal_delta := x * 5
  let vertical_delta := -y * 5
  let st := set_horizontal_angle st (st.horizontal_angle + horizontal_delta)
  set_vertical_angle st (st.vertical_angle + vertical_delta)

/-- Gimbal commands: the two direct setters (reached through
`CameraManager.control` with actions "horizontal" and "vertical") and the
gimbal joystick. -/
inductive GimbalOp (K : Type) where
  | setH (angle : K)
  | setV (angle : K)
  | joystick (x y : K)
  deriving Repr

/-- Single gimbal command applied to a gimbal state. -/
def gimbalStep {K : Type} [LinearOrderedField K] (st : GimbalState K) :
    GimbalOp K → GimbalState K
  | .setH a => set_horizontal_angle st a
  | .setV a => set_vertical_angle st a
  | .joystick x y => gimbal_joystick_control st x y

/-- Gimbal state after a sequence of commands from the initial state. -/
def runGimbal {K : Type} [LinearOrderedField K] (ops : List (GimbalOp K)) :
    GimbalState K :=
  ops.foldl gimbalStep (initGimbal K)

/-- GimbalState invariant of the specification: both stored angles lie
within their configured ranges. -/
def GimbalInv {K : Type} [LinearOrderedField K] (st : GimbalState K) : Prop :=
  st.horizontal_min ≤ st.horizontal_angle ∧
  st.horizontal_angle ≤ st.horizontal_max ∧
  st.vertical_min ≤ st.vertical_angle ∧
  st.vertical_angle ≤ st.vertical_max

/-- A video frame: rows of pixels, each pixel a list of channel values, as
the `numpy` arrays handled by `CameraManager` (entries are unsigned bytes,
modelled as naturals). -/
abbrev Frame : Type :=
  List (List (List ℕ))

/-- All-zero frame of `np.zeros((height, width, 3), dtype=np.uint8)`:
`height` rows of `width` pixels of 3 zero channels. -/
def zeroFrame (height width : ℕ) : Frame :=
  List.replicate height (List.replicate width (List.replicate 3 0))

/-- Camera state of `CameraManager` relevant to the frame pipeline: the
configured dimensions and the current frame, which is `none` before any
successful capture. -/
structure CameraState where
  frame_width : ℕ
  frame_height : ℕ
  current_frame : Option Frame

/-- Camera state after `CameraManager.__init__` with the default
environment: 640 by 480, and no frame yet when the initial test read failed
(`self.current_frame = None`). -/
def initCamera : CameraState :=
  ⟨640, 480, none⟩

/-- Body of one `_camera_loop` iteration: a successful device read replaces
the current frame; a failed read (`ret` false, here `none`) leaves the
previous frame in place and only logs a warning. -/
def camera_loop_step (st : CameraState) (read : Option Frame) : CameraState :=
  match read with
  | some f => { st with current_frame := some f }
  | none => st

/-- Body of `CameraManager.get_current_frame`: the stored frame, or the
all-zero frame of the configured dimensions when none exists yet. -/
def get_current_frame (st : CameraState) : Frame :=
  match st.current_frame with
  | none => zeroFrame st.frame_height st.frame_width
  | some f => f

/-- Speech state of `SpeechEngine`: the FIFO announcement queue and the
`speaking` flag. -/
structure SpeechState where
  speech_queue : List String
  speaking : Bool
  deriving DecidableEq, Repr

/-- Speech state after `SpeechEngine.__init__`: empty queue, not speaking. -/
def initSpeech : SpeechState :=
  ⟨[], false⟩

/-- Body of `SpeechEngine.speak`: empty text returns immediately (`if not
text`), otherwise the text is appended to the tail of the queue. -/
def speak (st : SpeechState) (text : String) : SpeechState :=
  if text = "" then st
  else { st with speech_queue := st.speech_queue ++ [text] }

/-- One iteration of `SpeechEngine._speech_loop`: an empty queue clears the
`speaking` flag and idles; otherwise the head is popped with `speaking` set,
the text is rendered, and the `finally` block clears `speaking`. The
returned option is the text rendered by this iteration. -/
def speech_loop_iter (st : SpeechState) : SpeechState × Option String :=
  match st.speech_queue with
  | [] => (⟨[], false⟩, none)
  | t :: rest => (⟨rest, false⟩, some t)

/-- Texts rendered by `n` iterations of the speech loop, in rendering
order. -/
def renderTrace : ℕ → SpeechState → List String
  | 0, _ => []
  | n + 1, st =>
    match (speech_loop_iter st).2 with
    | none => renderTrace n (speech_loop_iter st).1
    | some t => t :: renderTrace n (speech_loop_iter st).1

/-! ### Helper lemmas about the clamps and the evaluation of `move` -/

theorem clamp01_nonneg {K : Type} [LinearOrderedField K] (v : K) :
    0 ≤ clamp01 v :=
  le_max_left _ _

theorem clamp01_le_one {K : Type} [LinearOrderedField K] (v : K) :
    clamp01 v ≤ 1 :=
  max_le zero_le_one (min_le_left _ _)

theorem clamp01_eq_self {K : Type} [LinearOrderedField K] {v : K}
    (h0 : 0 ≤ v) (h1 : v ≤ 1) : clamp01 v = v := by
  rw [clamp01, min_eq_right h1, max_eq_right h0]

theorem abs_clamp1_le {K : Type} [LinearOrderedField K] (v : K) :
    |clamp1 v| ≤ |v| := by
  rw [clamp1]
  rcases le_total 1 v with h | h
  · rw [min_eq_left h, max_eq_right (by norm_num : (-1 : K) ≤ 1), abs_one]
    exact le_trans h (le_abs_self v)
  · rw [min_eq_right h]
    rcases le_total v (-1) with h' | h'
    · rw [max_eq_left h', abs_neg, abs_one]
      exact le_trans (by linarith [neg_le_abs v]) le_rfl
    · rw [max_eq_right h']

theorem clamp1_mul_self_le {K : Type} [LinearOrderedField K] (v : K) :
    clamp1 v * clamp1 v ≤ v * v := by
  have h := abs_clamp1_le v
  calc clamp1 v * clamp1 v = |clamp1 v| * |clamp1 v| :=
        (abs_mul_abs_self _).symm
    _ ≤ |v| * |v| := mul_le_mul h h (abs_nonneg _) (abs_nonneg _)
    _ = v * v := abs_mul_abs_self _

theorem move_forward_eq {K : Type} [LinearOrderedField K] (s : RobotState K)
    (sp : K) (dur : Option K) :
    move s "forward" sp dur =
      (set_motor_directions
        { s with current_direction := .forward, current_speed := clamp01 sp }
        1 1 1 1,
       .ok "forward" (clamp01 sp) dur) :=
  rfl

theorem move_backward_eq {K : Type} [LinearOrderedField K] (s : RobotState K)
    (sp : K) (dur : Option K) :
    move s "backward" sp dur =
      (set_motor_directions
        { s with current_direction := .backward, current_speed := clamp01 sp }
        (-1) (-1) (-1) (-1),
       .ok "backward" (clamp01 sp) dur) :=
  rfl

theorem move_left_eq {K : Type} [LinearOrderedField K] (s : RobotState K)
    (sp : K) (dur : Option K) :
    move s "left" sp dur =
      (set_motor_directions
        { s with current_direction := .left, current_speed := clamp01 sp }
        (-1) 1 (-1) 1,
       .ok "left" (clamp01 sp) dur) :=
  rfl

theorem move_right_eq {K : Type} [LinearOrderedField K] (s : RobotState K)
    (sp : K) (dur : Option K) :
    move s "right" sp dur =
      (set_motor_directions
        { s with current_direction := .right, current_speed := clamp01 sp }
        1 (-1) 1 (-1),
       .ok "right" (clamp01 sp) dur) :=
  rfl

theorem move_stop_eq {K : Type} [LinearOrderedField K] (s : RobotState K)
    (sp : K) (dur : Option K) :
    move s "stop" sp dur =
      (stop_motors
        { s with current_direction := .stop, current_speed := clamp01 sp },
       .ok "stop" (clamp01 sp) dur) :=
  rfl

theorem move_invalid_eq {K : Type} [LinearOrderedField K] (s : RobotState K)
    {d : String} (sp : K) (dur : Option K)
    (h : Direction.ofString d = none) :
    move s d sp dur = (s, .err ("Invalid direction: " ++ d)) := by
  unfold move
  rw [h]

theorem move_result_of_valid {K : Type} [LinearOrderedField K]
    (s : RobotState K) {d : String} (sp : K) (dur : Option K)
    {dir : Direction} (h : Direction.ofString d = some dir) :
    (move s d sp dur).2 = .ok dir.value (clamp01 sp) dur := by
  unfold move
  rw [h]

theorem Direction.value_of_ofString {d : String} {dir : Direction}
    (h : Direction.ofString d = some dir) : dir.value = d := by
  cases dir <;> unfold Direction.ofString at h <;>
    split_ifs at h with h1 h2 h3 h4 h5 <;>
    simp_all [Direction.value]

theorem Direction.ofString_eq_none_iff {d : String} :
    Direction.ofString d = none ↔
      d ∉ ["forward", "backward", "left", "right", "stop"] := by
  unfold Direction.ofString
  split_ifs with h1 h2 h3 h4 h5 <;> simp_all

/-- C9: `move` fails exactly on direction strings outside the five enum
values "forward", "backward", "left", "right", "stop"; an invalid direction
yields the non-fatal error dictionary naming the bad direction, and a valid
one yields the success dictionary echoing the direction, the clamped speed
and the duration. -/
theorem move_validates_direction {K : Type} [LinearOrderedField K]
    (s : RobotState K) (d : String) (sp : K) (dur : Option K) :
    (Direction.ofString d = none ↔
      d ∉ ["forward", "backward", "left", "right", "stop"]) ∧
    (Direction.ofString d = none →
      (move s d sp dur).2 = .err ("Invalid direction: " ++ d)) ∧
    (∀ dir : Direction, Direction.ofString d = some dir →
      (move s d sp dur).2 = .ok d (clamp01 sp) dur) := by
  refine ⟨Direction.ofString_eq_none_iff, ?_, ?_⟩
  · intro h
    rw [move_invalid_eq s sp dur h]
  · intro dir h
    rw [move_result_of_valid s sp dur h, Direction.value_of_ofString h]

theorem move_validates_direction_witness :
    clamp01 ((1 : ℚ) / 2) = 1 / 2 ∧
    (move (initRobot ℚ) "forward" (1 / 2) none).2 =
      .ok "forward" (clamp01 (1 / 2)) none ∧
    (move (initRobot ℚ) "up" (1 / 2) none).2 =
      .err "Invalid direction: up" := by
  refine ⟨by norm_num [clamp01], ?_, ?_⟩
  · exact (move_validates_direction (initRobot ℚ) "forward" (1 / 2) none).2.2
      .forward rfl
  · exact (move_validates_direction (initRobot ℚ) "up" (1 / 2) none).2.1 rfl

/-- C10: an invalid direction makes `move` fail atomically: the returned
state is the starting state, unchanged in every field, because the enum
validation happens before any mutation. -/
theorem move_invalid_preserves_state {K : Type} [LinearOrderedField K]
    (s : RobotState K) (d : String) (sp : K) (dur : Option K)
    (h : Direction.ofString d = none) :
    (move s d sp dur).1 = s := by
  rw [move_invalid_eq s sp dur h]

theorem move_invalid_preserves_state_witness :
    Direction.ofString "diagonal" = none ∧
    (move (⟨3 / 4, .forward, true, ⟨⟨1, 1⟩, ⟨2, -1⟩, ⟨3, 1⟩, ⟨4, -1⟩⟩⟩ :
        RobotState ℚ) "diagonal" 2 (some 3)).1 =
      ⟨3 / 4, .forward, true, ⟨⟨1, 1⟩, ⟨2, -1⟩, ⟨3, 1⟩, ⟨4, -1⟩⟩⟩ :=
  ⟨rfl, move_invalid_preserves_state _ "diagonal" 2 (some 3) rfl⟩

/-- C5: the per-wheel direction multipliers come from the fixed table keyed
by direction (forward all +1, backward all -1, left (-1,+1,-1,+1), right
(+1,-1,+1,-1), stop zeroes the actuation), and the 0.7 turn scaling lives
only in the joystick path: a direct `move` left at speed 0.6 keeps speed 0.6
and drives the wheels at (-0.6,+0.6,-0.6,+0.6), while the joystick path at
the same effective speed 0.6 scales a turn down to 0.42. -/
theorem move_wheel_table {K : Type} [LinearOrderedField K] (s : RobotState K)
    (sp : K) (dur : Option K) :
    motorDirs (move s "forward" sp dur).1 = (1, 1, 1, 1) ∧
    motorDirs (move s "backward" sp dur).1 = (-1, -1, -1, -1) ∧
    motorDirs (move s "left" sp dur).1 = (-1, 1, -1, 1) ∧
    motorDirs (move s "right" sp dur).1 = (1, -1, 1, -1) ∧
    motorSpeeds (move s "stop" sp dur).1 = (0, 0, 0, 0) ∧
    (move s "left" (6 / 10) none).1.current_speed = 6 / 10 ∧
    motorSpeeds (apply_pid_control (move s "left" (6 / 10) none).1) =
      (-(6 / 10), 6 / 10, -(6 / 10), 6 / 10) ∧
    (∀ piK : K, 0 < piK →
      (joystick_control (fun _ => 6 / 10) (fun _ _ => piK) piK s 0 0).1.current_speed
        = 42 / 100) := by
  have h6 : clamp01 ((6 : K) / 10) = 6 / 10 :=
    clamp01_eq_self (by norm_num) (by norm_num)
  refine ⟨?_, ?_, ?_, ?_, ?_, ?_, ?_, ?_⟩
  · simp [move_forward_eq, set_motor_directions, motorDirs]
  · simp [move_backward_eq, set_motor_directions, motorDirs]
  · simp [move_left_eq, set_motor_directions, motorDirs]
  · simp [move_right_eq, set_motor_directions, motorDirs]
  · simp [move_stop_eq, stop_motors, motorSpeeds]
  · simp [move_left_eq, set_motor_directions, h6]
  · simp [move_left_eq, set_motor_directions, apply_pid_control, motorSpeeds,
      h6]
  · intro piK hpi
    have h42 : clamp01 ((6 : K) / 10 * (7 / 10)) = 42 / 100 := by
      rw [show (6 : K) / 10 * (7 / 10) = 42 / 100 by ring]
      exact clamp01_eq_self (by norm_num) (by norm_num)
    simp only [joystick_control]
    rw [min_eq_right (by norm_num : (6 : K) / 10 ≤ 1)]
    rw [if_neg (by norm_num : ¬ (6 : K) / 10 < 1 / 10)]
    rw [if_neg (by rintro ⟨-, hle⟩; linarith)]
    rw [if_neg (by rintro ⟨-, hle⟩; linarith)]
    rw [if_neg (by rintro ⟨-, hlt⟩; linarith)]
    simp [Direction.value, move_left_eq, set_motor_directions, h42]

theorem move_wheel_table_witness :
    0 < (4 : ℚ) ∧
    motorDirs (move (initRobot ℚ) "forward" (1 / 2) none).1 = (1, 1, 1, 1) ∧
    (joystick_control (fun _ => 6 / 10) (fun _ _ => (4 : ℚ)) 4 (initRobot ℚ)
        0 0).1.current_speed = 42 / 100 := by
  refine ⟨by norm_num, ?_, ?_⟩
  · exact (move_wheel_table (initRobot ℚ) (1 / 2) none).1
  · exact (move_wheel_table (initRobot ℚ) (1 / 2) none).2.2.2.2.2.2.2 4
      (by norm_num)

theorem MotionInv_stop_motors {K : Type} [LinearOrderedField K]
    (s : RobotState K) : MotionInv (stop_motors s) := by
  simp [MotionInv, stop_motors]

theorem MotionInv_init (K : Type) [LinearOrderedField K] :
    MotionInv (initRobot K) := by
  simp [MotionInv, initRobot, init_motors]

theorem MotionInv_move {K : Type} [LinearOrderedField K] (s : RobotState K)
    (d : String) (sp : K) (dur : Option K) (h : MotionInv s) :
    MotionInv (move s d sp dur).1 := by
  rcases hd : Direction.ofString d with _ | dir
  · rw [move_invalid_eq s sp dur hd]
    exact h
  · unfold move
    rw [hd]
    cases dir <;>
      simp [MotionInv, set_motor_directions, stop_motors,
        clamp01_nonneg, clamp01_le_one]

theorem MotionInv_joystick {K : Type} [LinearOrderedField K]
    (sqrtK : K → K) (atan2K : K → K → K) (piK : K) (s : RobotState K)
    (x y : K) (h : MotionInv s) :
    MotionInv (joystick_control sqrtK atan2K piK s x y).1 := by
  simp only [joystick_control]
  split_ifs <;> exact MotionInv_move _ _ _ _ h

theorem MotionInv_step {K : Type} [LinearOrderedField K]
    (sqrtK : K → K) (atan2K : K → K → K) (piK : K) (s : RobotState K)
    (op : RobotOp K) (h : MotionInv s) :
    MotionInv (robotStep sqrtK atan2K piK s op) := by
  cases op with
  | moveCmd d sp dur => exact MotionInv_move s d sp dur h
  | joystickCmd x y => exact MotionInv_joystick sqrtK atan2K piK s x y h
  | startCmd =>
    unfold robotStep startController
    split_ifs
    · exact h
    · exact h
  | stopCmd =>
    unfold robotStep stopController
    split_ifs
    · exact MotionInv_stop_motors _
    · exact h
  | controlTick =>
    unfold robotStep
    exact h
  | timerFireEv => exact MotionInv_stop_motors s

theorem MotionInv_foldl {K : Type} [LinearOrderedField K]
    (sqrtK : K → K) (atan2K : K → K → K) (piK : K) :
    ∀ (ops : List (RobotOp K)) (s : RobotState K), MotionInv s →
      MotionInv (ops.foldl (robotStep sqrtK atan2K piK) s)
  | [], _, h => h
  | op :: ops, s, h =>
    MotionInv_foldl sqrtK atan2K piK ops _
      (MotionInv_step sqrtK atan2K piK s op h)

/-- C3: after every sequence of motion-controller operations — `move` with
any real speed, `joystick_control` with any real axes (and any square root,
atan2 and π values), `start`, `stop`, a control tick or a timer firing — the
MotionState invariant holds: the speed lies in [0,1], and direction STOP
forces speed 0 and zero actuation output `speed * multiplier` on every
wheel. -/
theorem motion_state_invariant (sqrtK : ℝ → ℝ) (atan2K : ℝ → ℝ → ℝ)
    (piK : ℝ) (ops : List (RobotOp ℝ)) :
    MotionInv (runRobot sqrtK atan2K piK ops) :=
  MotionInv_foldl sqrtK atan2K piK ops (initRobot ℝ) (MotionInv_init ℝ)

theorem motion_state_invariant_witness :
    MotionInv (runRobot (fun v : ℝ => v) (fun a _ => a) 3
      [RobotOp.moveCmd "forward" 2 none, RobotOp.stopCmd]) :=
  motion_state_invariant (fun v : ℝ => v) (fun a _ => a) 3
    [RobotOp.moveCmd "forward" 2 none, RobotOp.stopCmd]

/-- C1 is violated by the code: `stop_after_duration` holds no generation
counter and calls `_stop_motors` unconditionally, so a stale duration timer
fires into the state left by a newer `move` and overwrites it. Concretely,
after `move("forward", 0.5, duration=5)` and then `move("backward", 0.8)`
issued before the 5 s elapse, the newer state is backward at 0.8, yet the
stale timer firing turns it into stop at 0 — the direction and speed set by
the newer command do not survive. -/
theorem stale_timer_overrides_newer_move :
    (move ((move (initRobot ℚ) "forward" (1 / 2) (some 5)).1) "backward"
      (8 / 10) none).1.current_direction = Direction.backward ∧
    (move ((move (initRobot ℚ) "forward" (1 / 2) (some 5)).1) "backward"
      (8 / 10) none).1.current_speed = 8 / 10 ∧
    (timer_fire ((move ((move (initRobot ℚ) "forward" (1 / 2) (some 5)).1)
      "backward" (8 / 10) none).1)).current_direction = Direction.stop ∧
    (timer_fire ((move ((move (initRobot ℚ) "forward" (1 / 2) (some 5)).1)
      "backward" (8 / 10) none).1)).current_speed = 0 := by
  have h8 : clamp01 ((8 : ℚ) / 10) = 8 / 10 :=
    clamp01_eq_self (by norm_num) (by norm_num)
  refine ⟨?_, ?_, ?_, ?_⟩ <;>
    simp [move_forward_eq, move_backward_eq, set_motor_directions,
      timer_fire, stop_motors, h8]

theorem GimbalInv_setH {K : Type} [LinearOrderedField K] (st : GimbalState K)
    (a : K) (h : GimbalInv st) : GimbalInv (set_horizontal_angle st a) := by
  obtain ⟨h1, h2, h3, h4⟩ := h
  simp only [GimbalInv, set_horizontal_angle]
  exact ⟨le_max_left _ _, max_le (h1.trans h2) (min_le_left _ _), h3, h4⟩

theorem GimbalInv_setV {K : Type} [LinearOrderedField K] (st : GimbalState K)
    (a : K) (h : GimbalInv st) : GimbalInv (set_vertical_angle st a) := by
  obtain ⟨h1, h2, h3, h4⟩ := h
  simp only [GimbalInv, set_vertical_angle]
  exact ⟨h1, h2, le_max_left _ _, max_le (h3.trans h4) (min_le_left _ _)⟩

theorem GimbalInv_joystick {K : Type} [LinearOrderedField K]
    (st : GimbalState K) (x y : K) (h : GimbalInv st) :
    GimbalInv (gimbal_joystick_control st x y) :=
  GimbalInv_setV _ _ (GimbalInv_setH _ _ h)

theorem GimbalInv_step {K : Type} [LinearOrderedField K] (st : GimbalState K)
    (op : GimbalOp K) (h : GimbalInv st) : GimbalInv (gimbalStep st op) := by
  cases op with
  | setH a => exact GimbalInv_setH st a h
  | setV a => exact GimbalInv_setV st a h
  | joystick x y => exact GimbalInv_joystick st x y h

theorem GimbalInv_init (K : Type) [LinearOrderedField K] :
    GimbalInv (initGimbal K) := by
  simp only [GimbalInv, initGimbal]
  norm_num

theorem GimbalInv_foldl {K : Type} [LinearOrderedField K] :
    ∀ (ops : List (GimbalOp K)) (st : GimbalState K), GimbalInv st →
      GimbalInv (ops.foldl gimbalStep st)
  | [], _, h => h
  | op :: ops, st, h => GimbalInv_foldl ops _ (GimbalInv_step st op h)

/-- C6: after every sequence of gimbal operations — `set_horizontal_angle`,
`set_vertical_angle` or the gimbal joystick (which clamps its axes to
[-1,1], applies 5 degrees per unit with the vertical axis inverted, and
calls the two setters) — with real inputs of any magnitude or sign, the
stored horizontal angle lies in [horizontal_min, horizontal_max] and the
stored vertical angle lies in [vertical_min, vertical_max], because each
setter clamps unconditionally on every write. -/
theorem gimbal_angles_always_in_range (ops : List (GimbalOp ℝ)) :
    GimbalInv (runGimbal ops) :=
  GimbalInv_foldl ops (initGimbal ℝ) (GimbalInv_init ℝ)

theorem gimbal_angles_always_in_range_witness :
    GimbalInv (runGimbal [GimbalOp.setH (1000 : ℝ), GimbalOp.setV (-1000),
      GimbalOp.joystick 7 (-9)]) :=
  gimbal_angles_always_in_range
    [GimbalOp.setH (1000 : ℝ), GimbalOp.setV (-1000), GimbalOp.joystick 7 (-9)]

/-- C7: `get_current_frame` is total and never yields a missing frame:
before any successful capture (`current_frame` still `None`) it returns the
all-zero frame of the configured height and width with 3 channels per
pixel, and otherwise it returns the stored last good frame. -/
theorem get_current_frame_never_null (st : CameraState) :
    (st.current_frame = none →
      get_current_frame st = zeroFrame st.frame_height st.frame_width) ∧
    (zeroFrame st.frame_height st.frame_width).length = st.frame_height ∧
    (∀ row ∈ zeroFrame st.frame_height st.frame_width,
      row.length = st.frame_width ∧
      ∀ px ∈ row, px.length = 3 ∧ ∀ c ∈ px, c = 0) ∧
    (∀ f, st.current_frame = some f → get_current_frame st = f) := by
  refine ⟨?_, ?_, ?_, ?_⟩
  · intro h
    simp [get_current_frame, h]
  · simp [zeroFrame]
  · intro row hrow
    simp only [zeroFrame, List.mem_replicate] at hrow
    rcases hrow with ⟨-, rfl⟩
    refine ⟨by simp, ?_⟩
    intro px hpx
    rw [List.mem_replicate] at hpx
    rcases hpx with ⟨-, rfl⟩
    refine ⟨by simp, ?_⟩
    intro c hc
    rw [List.mem_replicate] at hc
    exact hc.2
  · intro f h
    simp [get_current_frame, h]

theorem get_current_frame_never_null_witness :
    initCamera.current_frame = none ∧
    get_current_frame initCamera = zeroFrame 480 640 :=
  ⟨rfl, (get_current_frame_never_null initCamera).1 rfl⟩

theorem speak_eq {st : SpeechState} {t : String} (h : ¬ t = "") :
    speak st t = ⟨st.speech_queue ++ [t], st.speaking⟩ := by
  rw [speak, if_neg h]

theorem renderTrace_full : ∀ (q : List String) (b : Bool),
    renderTrace q.length ⟨q, b⟩ = q
  | [], _ => rfl
  | t :: rest, _ => congrArg (List.cons t) (renderTrace_full rest false)

/-- C8: `speak` of empty text never changes the queue length, and FIFO
order is preserved: enqueueing two non-empty texts in sequence appends them
to the tail in that order, and running the speech loop (which pops from the
head) renders the whole queue, the two texts included, in enqueue order. -/
theorem speak_empty_noop_and_fifo (st : SpeechState) (t1 t2 : String) :
    (speak st "").speech_queue.length = st.speech_queue.length ∧
    (¬ t1 = "" → ¬ t2 = "" →
      (speak (speak st t1) t2).speech_queue =
        st.speech_queue ++ [t1, t2] ∧
      renderTrace (st.speech_queue ++ [t1, t2]).length
          (speak (speak st t1) t2) = st.speech_queue ++ [t1, t2]) := by
  refine ⟨by simp [speak], ?_⟩
  intro h1 h2
  have hs : speak (speak st t1) t2 =
      ⟨st.speech_queue ++ [t1, t2], st.speaking⟩ := by
    rw [speak_eq h1, speak_eq h2]
    simp
  refine ⟨by rw [hs], ?_⟩
  rw [hs]
  exact renderTrace_full (st.speech_queue ++ [t1, t2]) st.speaking

theorem speak_empty_noop_and_fifo_witness :
    ¬ "hi" = "" ∧ ¬ "bye" = "" ∧
    (speak initSpeech "").speech_queue.length =
      initSpeech.speech_queue.length ∧
    (speak (speak initSpeech "hi") "bye").speech_queue = ["hi", "bye"] ∧
    renderTrace 2 (speak (speak initSpeech "hi") "bye") = ["hi", "bye"] := by
  refine ⟨by decide, by decide, ?_, ?_, ?_⟩
  · exact (speak_empty_noop_and_fifo initSpeech "hi" "bye").1
  · exact ((speak_empty_noop_and_fifo initSpeech "hi" "bye").2 (by decide)
      (by decide)).1
  · exact ((speak_empty_noop_and_fifo initSpeech "hi" "bye").2 (by decide)
      (by decide)).2

theorem deadzone_lt {x y : ℝ} (h : Real.sqrt (x ^ 2 + y ^ 2) < 1 / 10) :
    min 1 (Real.sqrt (clamp1 x * clamp1 x + clamp1 y * clamp1 y)) < 1 / 10 := by
  have hx : clamp1 x * clamp1 x ≤ x ^ 2 := by
    rw [pow_two]
    exact clamp1_mul_self_le x
  have hy : clamp1 y * clamp1 y ≤ y ^ 2 := by
    rw [pow_two]
    exact clamp1_mul_self_le y
  calc min 1 (Real.sqrt (clamp1 x * clamp1 x + clamp1 y * clamp1 y))
      ≤ Real.sqrt (clamp1 x * clamp1 x + clamp1 y * clamp1 y) :=
        min_le_right _ _
    _ ≤ Real.sqrt (x ^ 2 + y ^ 2) := Real.sqrt_le_sqrt (add_le_add hx hy)
    _ < 1 / 10 := h

/-- C2 (amended): a joystick input inside the deadzone
(`sqrt(x² + y²) < 0.1`) resolves to Stop with stored speed 0 — the deadzone
branch calls `move(Direction.STOP.value)`, whose `_stop_motors` zeroes the
state — but the returned status dictionary carries `move`'s default speed
0.5, not 0, because the deadzone call passes no speed argument. -/
theorem joystick_deadzone_stops (s : RobotState ℝ) (x y : ℝ)
    (h : Real.sqrt (x ^ 2 + y ^ 2) < 1 / 10) :
    (joystick_control Real.sqrt (fun b a => Complex.arg ⟨a, b⟩) Real.pi
        s x y).1.current_direction = Direction.stop ∧
    (joystick_control Real.sqrt (fun b a => Complex.arg ⟨a, b⟩) Real.pi
        s x y).1.current_speed = 0 ∧
    (joystick_control Real.sqrt (fun b a => Complex.arg ⟨a, b⟩) Real.pi
        s x y).2 = MoveResult.ok "stop" (1 / 2) none := by
  have hlt := deadzone_lt h
  have h12 : clamp01 ((1 : ℝ) / 2) = 1 / 2 :=
    clamp01_eq_self (by norm_num) (by norm_num)
  simp only [joystick_control]
  rw [if_pos hlt]
  rw [show Direction.stop.value = "stop" from rfl, move_stop_eq]
  exact ⟨rfl, rfl, by rw [h12]⟩

theorem joystick_deadzone_stops_witness :
    Real.sqrt ((0 : ℝ) ^ 2 + 0 ^ 2) < 1 / 10 ∧
    (joystick_control Real.sqrt (fun b a => Complex.arg ⟨a, b⟩) Real.pi
        (initRobot ℝ) 0 0).1.current_direction = Direction.stop ∧
    (joystick_control Real.sqrt (fun b a => Complex.arg ⟨a, b⟩) Real.pi
        (initRobot ℝ) 0 0).1.current_speed = 0 ∧
    (joystick_control Real.sqrt (fun b a => Complex.arg ⟨a, b⟩) Real.pi
        (initRobot ℝ) 0 0).2 = MoveResult.ok "stop" (1 / 2) none := by
  have h0 : Real.sqrt ((0 : ℝ) ^ 2 + 0 ^ 2) < 1 / 10 := by
    rw [show (0 : ℝ) ^ 2 + 0 ^ 2 = 0 by norm_num, Real.sqrt_zero]
    norm_num
  exact ⟨h0, (joystick_deadzone_stops (initRobot ℝ) 0 0 h0).1,
    (joystick_deadzone_stops (initRobot ℝ) 0 0 h0).2.1,
    (joystick_deadzone_stops (initRobot ℝ) 0 0 h0).2.2⟩

/-- C2 as frozen is false at the concrete deadzone input (0, 0): the status
dictionary returned by the deadzone branch reports speed 0.5 (the default
speed of the `move` call it delegates to), not speed 0. -/
theorem joystick_deadzone_status_speed_half :
    Real.sqrt ((0 : ℝ) ^ 2 + 0 ^ 2) < 1 / 10 ∧
    (joystick_control Real.sqrt (fun b a => Complex.arg ⟨a, b⟩) Real.pi
        (initRobot ℝ) 0 0).2 = MoveResult.ok "stop" (1 / 2) none ∧
    ¬ (joystick_control Real.sqrt (fun b a => Complex.arg ⟨a, b⟩) Real.pi
        (initRobot ℝ) 0 0).2 = MoveResult.ok "stop" 0 none := by
  have h0 : Real.sqrt ((0 : ℝ) ^ 2 + 0 ^ 2) < 1 / 10 := by
    rw [show (0 : ℝ) ^ 2 + 0 ^ 2 = 0 by norm_num, Real.sqrt_zero]
    norm_num
  have hlt := deadzone_lt h0
  have h12 : clamp01 ((1 : ℝ) / 2) = 1 / 2 :=
    clamp01_eq_self (by norm_num) (by norm_num)
  have hres : (joystick_control Real.sqrt (fun b a => Complex.arg ⟨a, b⟩)
      Real.pi (initRobot ℝ) 0 0).2 = MoveResult.ok "stop" (1 / 2) none := by
    simp only [joystick_control]
    rw [if_pos hlt]
    rw [show Direction.stop.value = "stop" from rfl, move_stop_eq]
    rw [h12]
  refine ⟨h0, hres, ?_⟩
  rw [hres]
  intro heq
  rw [MoveResult.ok.injEq] at heq
  norm_num at heq

/-- C4: outside the deadzone, the joystick direction is selected from the
angle `atan2(y, x)` (on the clamped axes) with exact quadrant boundaries:
angles in [-π/4, π/4] resolve to Right (the boundary π/4 itself included),
angles in (π/4, 3π/4] resolve to Forward, angles in [-3π/4, -π/4) resolve
to Backward, and every remaining angle resolves to Left. -/
theorem joystick_quadrant_boundaries (s : RobotState ℝ) (sqrtK : ℝ → ℝ)
    (x y : ℝ)
    (hdz : ¬ min 1 (sqrtK (clamp1 x * clamp1 x + clamp1 y * clamp1 y))
        < 1 / 10) :
    ((-(Real.pi / 4) ≤ Complex.arg ⟨clamp1 x, clamp1 y⟩ ∧
        Complex.arg ⟨clamp1 x, clamp1 y⟩ ≤ Real.pi / 4) →
      (joystick_control sqrtK (fun b a => Complex.arg ⟨a, b⟩) Real.pi
          s x y).1.current_direction = Direction.right) ∧
    ((Real.pi / 4 < Complex.arg ⟨clamp1 x, clamp1 y⟩ ∧
        Complex.arg ⟨clamp1 x, clamp1 y⟩ ≤ 3 * Real.pi / 4) →
      (joystick_control sqrtK (fun b a => Complex.arg ⟨a, b⟩) Real.pi
          s x y).1.current_direction = Direction.forward) ∧
    ((-(3 * Real.pi / 4) ≤ Complex.arg ⟨clamp1 x, clamp1 y⟩ ∧
        Complex.arg ⟨clamp1 x, clamp1 y⟩ < -(Real.pi / 4)) →
      (joystick_control sqrtK (fun b a => Complex.arg ⟨a, b⟩) Real.pi
          s x y).1.current_direction = Direction.backward) ∧
    ((Complex.arg ⟨clamp1 x, clamp1 y⟩ < -(3 * Real.pi / 4) ∨
        3 * Real.pi / 4 < Complex.arg ⟨clamp1 x, clamp1 y⟩) →
      (joystick_control sqrtK (fun b a => Complex.arg ⟨a, b⟩) Real.pi
          s x y).1.current_direction = Direction.left) := by
  have hpi := Real.pi_pos
  simp only [joystick_control]
  rw [if_neg hdz]
  refine ⟨?_, ?_, ?_, ?_⟩
  · intro h
    rw [if_pos h]
    simp [Direction.value, move_right_eq, set_motor_directions]
  · intro h
    rw [if_neg (by rintro ⟨-, hle⟩; linarith [h.1]), if_pos h]
    simp [Direction.value, move_forward_eq, set_motor_directions]
  · intro h
    rw [if_neg (by rintro ⟨hge, -⟩; linarith [h.2]),
      if_neg (by rintro ⟨hgt, -⟩; linarith [h.2]), if_pos h]
    simp [Direction.value, move_backward_eq, set_motor_directions]
  · intro h
    have hc1 : ¬(-(Real.pi / 4) ≤ Complex.arg ⟨clamp1 x, clamp1 y⟩ ∧
        Complex.arg ⟨clamp1 x, clamp1 y⟩ ≤ Real.pi / 4) := by
      rcases h with h | h <;> rintro ⟨h1, h2⟩ <;> linarith
    have hc2 : ¬(Real.pi / 4 < Complex.arg ⟨clamp1 x, clamp1 y⟩ ∧
        Complex.arg ⟨clamp1 x, clamp1 y⟩ ≤ 3 * Real.pi / 4) := by
      rcases h with h | h <;> rintro ⟨h1, h2⟩ <;> linarith
    have hc3 : ¬(-(3 * Real.pi / 4) ≤ Complex.arg ⟨clamp1 x, clamp1 y⟩ ∧
        Complex.arg ⟨clamp1 x, clamp1 y⟩ < -(Real.pi / 4)) := by
      rcases h with h | h <;> rintro ⟨h1, h2⟩ <;> linarith
    rw [if_neg hc1, if_neg hc2, if_neg hc3]
    simp [Direction.value, move_left_eq, set_motor_directions]

theorem joystick_quadrant_boundaries_witness :
    (¬ min 1 (clamp1 (1 : ℝ) * clamp1 1 + clamp1 0 * clamp1 0) < 1 / 10) ∧
    (joystick_control (fun v : ℝ => v) (fun b a => Complex.arg ⟨a, b⟩)
        Real.pi (initRobot ℝ) 1 0).1.current_direction = Direction.right := by
  have hc1 : clamp1 (1 : ℝ) = 1 := by
    rw [clamp1, min_self, max_eq_right (by norm_num : (-1 : ℝ) ≤ 1)]
  have hc0 : clamp1 (0 : ℝ) = 0 := by
    rw [clamp1, min_eq_right (by norm_num : (0 : ℝ) ≤ 1),
      max_eq_right (by norm_num : (-1 : ℝ) ≤ 0)]
  have hdz : ¬ min 1 (clamp1 (1 : ℝ) * clamp1 1 + clamp1 0 * clamp1 0)
      < 1 / 10 := by
    rw [hc1, hc0, show (1 : ℝ) * 1 + 0 * 0 = 1 by norm_num, min_self]
    norm_num
  have hone : (⟨clamp1 (1 : ℝ), clamp1 0⟩ : ℂ) = 1 := by
    rw [hc1, hc0]
    apply Complex.ext <;> simp
  have hrange : -(Real.pi / 4) ≤ Complex.arg ⟨clamp1 (1 : ℝ), clamp1 0⟩ ∧
      Complex.arg ⟨clamp1 (1 : ℝ), clamp1 0⟩ ≤ Real.pi / 4 := by
    rw [hone, Complex.arg_one]
    constructor <;> linarith [Real.pi_pos]
  exact ⟨hdz,
    (joystick_quadrant_boundaries (initRobot ℝ) (fun v => v) 1 0 hdz).1
      hrange⟩
